import Mathlib

/-!
Verification of the Sonora playback core (src/core/playback) against its
natural-language specification.

The development shallow-embeds the two core components:

* the Streaming Source (`decoder.rs`): the seek-and-skip setup performed by
  `open_source_at_ms`, and the `SymphoniaSource` buffer/refill/skip state
  machine with its `Iterator::next` pull operation, modelled over an abstract
  list of demuxer packet outcomes;
* the Playback Engine (`engine.rs`): `handle_command`, `tick`,
  `play_file_at`, `stop_internal` and the `run` main loop, modelled as pure
  state-transition functions over an explicit `EngineState`, with the external
  collaborators (decoder construction, audio sink clock and queue) supplied as
  oracle inputs.

Machine integers are modelled as `Nat` (the Rust code uses `u64`/`u32`
saturating and truncating operations where noted); the `f32` engine volume is
modelled as `Rat`, which is exact for the only operation the code performs on
it (`clamp(0.0, 1.0)`, a pair of comparisons) for every non-NaN input.
-/

namespace Sonora

/-! ## Streaming Source: seek setup (decoder.rs, `open_source_at_ms`)

`open_source_at_ms` (decoder.rs:62-131) decides, for `start_ms > 0`, how much
decode-skip remainder `skip_ms` to record and whether the codec decoder is
rebuilt after the demuxer seek attempt.  The demuxer is external, so its
answers are oracle inputs:

* `time_base` — whether the track's codec parameters carry a time base;
* `tsSeek` — outcome of `format.seek(Coarse, SeekTo::TimeStamp ...)` when a
  time base is present: `some actual_ms` is a successful seek whose landing
  timestamp converts back to `actual_ms` milliseconds (the composition
  `tb.calc_time` / `time_to_ms` applied to `seeked.actual_ts`), `none` a
  failed seek;
* `timeSeekOk` — outcome of `format.seek(Coarse, SeekTo::Time ...)` attempted
  when no time base is present.

A failed decoder re-init aborts construction with an error (decoder.rs:97-99,
119-121); the claims quantify over constructions that succeed, so that branch
is not modelled.
-/

structure SeekSetup where
  skip_ms : Nat
  decoder_recreated : Bool
deriving DecidableEq

/-- The seek-and-skip decision of `open_source_at_ms` (decoder.rs:62-131).
`start_ms.saturating_sub actual_ms` on `u64` is `Nat` truncated subtraction. -/
def open_seek_setup (start_ms : Nat) (time_base : Bool)
    (tsSeek : Option Nat) (timeSeekOk : Bool) : SeekSetup :=
  if start_ms = 0 then ⟨0, false⟩
  else if time_base then
    match tsSeek with
    | some actual_ms => ⟨start_ms - actual_ms, true⟩
    | none => ⟨start_ms, false⟩
  else
    if timeSeekOk then ⟨0, true⟩ else ⟨start_ms, false⟩

/-! ## Streaming Source: buffer state machine (decoder.rs, `SymphoniaSource`)

The demuxer+decoder pair is abstracted as a list of packet outcomes: each call
to `format.next_packet()` pops the head.  A successfully decoded packet
carries the sample rate, channel count and interleaved samples the decode
produced; sample values are opaque to the source's logic, so they are
modelled as `Nat`.  `decoder.reset()` carries no modelled state.
-/

inductive DecodeOutcome where
  | ok (sr : Nat) (ch : Nat) (samples : List Nat)
  | ioErr
  | decodeErr
  | resetRequired
  | otherErr
deriving DecidableEq

inductive PacketEvent where
  | packet (trackId : Nat) (dec : DecodeOutcome)
  | ioErr
  | resetRequired
  | otherErr
deriving DecidableEq

structure SymphoniaSource where
  stream : List PacketEvent
  track_id : Nat
  sample_rate : Nat
  channels : Nat
  out : List Nat
  out_pos : Nat
  skip_ms : Nat
  skip_samples_remaining : Nat
  skip_init_done : Bool
  ended : Bool
deriving DecidableEq

/-- `ensure_skip_initialized` (decoder.rs:198-218): on first call after the
real sample rate and channel count are known, convert `skip_ms` to an
interleaved sample count.  The Rust `((skip_ms as f64) * (sample_rate as f64)
/ 1000.0).ceil()` is modelled as exact ceiling division. (The field
`skip_init_done` models the source's `skip_initialized` flag.) -/
def ensure_skip_init (s : SymphoniaSource) : SymphoniaSource :=
  if s.skip_init_done then s
  else
    let s1 := { s with skip_init_done := true }
    if s1.skip_ms = 0 then { s1 with skip_samples_remaining := 0 }
    else
      let frames_to_skip := (s1.skip_ms * s1.sample_rate + 999) / 1000
      { s1 with skip_samples_remaining := frames_to_skip * s1.channels }

/-- `apply_skip_to_current_buffer` (decoder.rs:220-230). -/
def apply_skip_to_current_buffer (s : SymphoniaSource) : SymphoniaSource :=
  if s.skip_samples_remaining = 0 then s
  else
    let available := s.out.length
    let skip_now := min s.skip_samples_remaining available
    { s with out_pos := skip_now,
             skip_samples_remaining := s.skip_samples_remaining - skip_now }

/-- The refill loop body of `fill_out_buffer` (decoder.rs:240-324), recursing
over the remaining packet outcomes.  Mutations performed before an error or
end-of-stream persist, matching the in-place Rust mutation; the second
component is the `Err` message if any.  An exhausted packet list behaves as
the demuxer's end-of-stream `IoError`. -/
def fillGo (s : SymphoniaSource) : List PacketEvent → SymphoniaSource × Option String
  | [] => ({ s with stream := [], ended := true }, none)
  | ev :: rest =>
    match ev with
    | .ioErr => ({ s with stream := rest, ended := true }, none)
    | .resetRequired => fillGo s rest
    | .otherErr => ({ s with stream := rest }, some "Decode read error")
    | .packet tid dec =>
      if tid ≠ s.track_id then fillGo s rest
      else
        match dec with
        | .ioErr => ({ s with stream := rest, ended := true }, none)
        | .decodeErr => fillGo s rest
        | .resetRequired => fillGo s rest
        | .otherErr => ({ s with stream := rest }, some "Decode error")
        | .ok sr ch samples =>
          if samples.isEmpty then ({ s with stream := rest, ended := true }, none)
          else
            let s1 := { s with stream := rest, sample_rate := sr, channels := ch,
                               out := samples, out_pos := 0 }
            (apply_skip_to_current_buffer (ensure_skip_init s1), none)

/-- `fill_out_buffer` (decoder.rs:232-325): no-op when already ended,
otherwise clear the output buffer and decode forward. -/
def fill_out_buffer (s : SymphoniaSource) : SymphoniaSource × Option String :=
  if s.ended then (s, none)
  else fillGo { s with out := [], out_pos := 0 } s.stream

/-- `SymphoniaSource::new` (decoder.rs:170-196): default 44100 Hz / 2
channels until the first decode, then one priming `fill_out_buffer` whose
error, if any, is discarded (`let _ = this.fill_out_buffer();`). -/
def SymphoniaSource.new (stream : List PacketEvent) (track_id : Nat)
    (skip_ms : Nat) : SymphoniaSource :=
  let s0 : SymphoniaSource :=
    { stream := stream, track_id := track_id, sample_rate := 44100,
      channels := 2, out := [], out_pos := 0, skip_ms := skip_ms,
      skip_samples_remaining := 0, skip_init_done := false, ended := false }
  (fill_out_buffer s0).1

/-- `Iterator::next` for `SymphoniaSource` (decoder.rs:331-348).  Returns the
pulled sample (if any) and the successor state. -/
def SymphoniaSource.next (s : SymphoniaSource) : Option Nat × SymphoniaSource :=
  if s.out.length ≤ s.out_pos then
    if s.ended then (none, s)
    else
      match fill_out_buffer s with
      | (s1, some _) => (none, { s1 with ended := true })
      | (s1, none) =>
        if s1.out.length ≤ s1.out_pos ∧ s1.ended then (none, s1)
        else (s1.out[s1.out_pos]?, { s1 with out_pos := s1.out_pos + 1 })
  else (s.out[s.out_pos]?, { s with out_pos := s.out_pos + 1 })

/-! ## Playback Engine (engine.rs)

The engine owns at most one rodio `Sink`.  Of the sink's interface the engine
*sets* volume and paused-ness (`set_volume`, `play`, `pause`) and *reads*
paused-ness (`is_paused`); those live in `SinkState`.  The sink's elapsed
clock (`get_pos`) and queue-drained flag (`empty`) are run-time observations
of the audio device, supplied to `tick` as oracle inputs.

`PlayerEventM` models `PlayerEvent` as the engine constructs it
(engine.rs:206-210) and the GUI consumes it (gui/update/playback.rs:286-315),
with `Started` carrying `path`, `duration_ms` and `start_ms`.  (The enum
declaration in core/playback/mod.rs:41-55 of this snapshot lags behind those
two files: its `Started` variant lacks the `start_ms` field the engine
initializes and the GUI matches on.)

The result of `open_source_at_ms` is external to the engine: each
`PlayFile`/`Seek` command carries the outcome as an oracle, either the error
string or the `Option<u64>` duration of the freshly opened source (the source
value itself goes straight into the sink and never enters engine state). -/

structure SinkState where
  volume : Rat
  paused : Bool
deriving DecidableEq

structure EngineState where
  sink : Option SinkState
  current_path : Option String
  current_duration_ms : Option Nat
  base_position_ms : Nat
  volume : Rat
  ended_emitted : Bool
deriving DecidableEq

inductive PlayerEventM where
  | started (path : String) (duration_ms : Option Nat) (start_ms : Nat)
  | paused
  | resumed
  | stopped
  | position (position_ms : Nat)
  | trackEnded
  | error (msg : String)
deriving DecidableEq

inductive Cmd where
  | playFile (path : String) (openResult : Except String (Option Nat))
  | pause
  | resume
  | stop
  | seek (ms : Nat) (openResult : Except String (Option Nat))
  | setVolume (v : Rat)
  | shutdown

/-- Result of handling one command: successor state, events sent on
`event_tx` in order, and the `bool` the Rust `handle_command` returns
(`true` only for `Shutdown`). -/
structure CmdResult where
  state : EngineState
  events : List PlayerEventM
  stop_loop : Bool
deriving DecidableEq

/-- `stop_internal` (engine.rs:215-223): stop and drop the sink, clear the
session fields.  The volume survives. -/
def stop_internal (st : EngineState) : EngineState :=
  { st with sink := none, current_path := none, current_duration_ms := none,
            base_position_ms := 0, ended_emitted := false }

/-- `v.clamp(0.0, 1.0)` on `f32` (engine.rs:136): return the bound when the
value lies outside it, the value otherwise.  Exact on `Rat` for every
non-NaN input, since only comparisons are involved. -/
def clamp01 (v : Rat) : Rat :=
  if v < 0 then 0 else if 1 < v then 1 else v

/-- `play_file_at` (engine.rs:169-213).  The current session is torn down
*first*; then a fresh sink is created with the remembered volume; then the
source is opened.  On open failure the `?` propagates the error string and
the fresh local sink is dropped, so only the torn-down state remains.  On
success the sink holds the source (paused per `resume_playing`), the session
fields are set and `Started` is emitted.  Components: successor state, events
emitted inside the function, and the error string when `open_source_at_ms`
failed. -/
def play_file_at (st : EngineState) (path : String) (start_ms : Nat)
    (resume_playing : Bool) (openResult : Except String (Option Nat)) :
    EngineState × List PlayerEventM × Option String :=
  let st1 := stop_internal st
  match openResult with
  | .error e => (st1, [], some e)
  | .ok duration_ms =>
    ({ st1 with
        sink := some { volume := st1.volume, paused := !resume_playing },
        current_duration_ms := duration_ms,
        current_path := some path,
        base_position_ms := start_ms,
        ended_emitted := false },
     [.started path duration_ms start_ms], none)

/-- `handle_command` (engine.rs:76-152). -/
def handle_command (st : EngineState) (cmd : Cmd) : CmdResult :=
  match cmd with
  | .playFile path r =>
    match play_file_at st path 0 true r with
    | (st1, evs, some e) => ⟨st1, evs ++ [.error e], false⟩
    | (st1, evs, none) => ⟨st1, evs, false⟩
  | .pause =>
    match st.sink with
    | some sk => ⟨{ st with sink := some { sk with paused := true } }, [.paused], false⟩
    | none => ⟨st, [], false⟩
  | .resume =>
    match st.sink with
    | some sk => ⟨{ st with sink := some { sk with paused := false } }, [.resumed], false⟩
    | none => ⟨st, [], false⟩
  | .stop => ⟨stop_internal st, [.stopped], false⟩
  | .seek ms r =>
    match st.current_path with
    | none => ⟨st, [], false⟩
    | some path =>
      let resume_playing :=
        match st.sink with
        | some sk => !sk.paused
        | none => true
      match play_file_at st path ms resume_playing r with
      | (st1, evs, some e) => ⟨st1, evs ++ [.error e], false⟩
      | (st1, evs, none) => ⟨st1, evs ++ [.position ms], false⟩
  | .setVolume v =>
    let cl := clamp01 v
    match st.sink with
    | some sk =>
      ⟨{ st with volume := cl, sink := some { sk with volume := cl } }, [], false⟩
    | none => ⟨{ st with volume := cl }, [], false⟩
  | .shutdown => ⟨st, [], true⟩

/-- `tick` (engine.rs:154-167).  `elapsed_ms` is what `sink.get_pos()`
reports at this instant, `queue_empty` what `sink.empty()` reports. -/
def tick (st : EngineState) (elapsed_ms : Nat) (queue_empty : Bool) :
    EngineState × List PlayerEventM :=
  match st.sink with
  | none => (st, [])
  | some _ =>
    let position_ms := st.base_position_ms + elapsed_ms
    if (queue_empty && st.current_path.isSome && !st.ended_emitted) = true then
      (stop_internal { st with ended_emitted := true },
       [.position position_ms, .trackEnded])
    else (st, [.position position_ms])

/-! ## Engine main loop (engine.rs, `run`)

One iteration of the loop receives from the command channel with a 200 ms
timeout.  An iteration's input is one of:

* `recv first rest elapsed queueEmpty` — `recv_timeout` returned `first`, the
  non-blocking drain (`try_recv`) then yielded `rest` in order, and the tick
  that closes the iteration would observe `elapsed`/`queueEmpty` on the sink;
* `timeout elapsed queueEmpty` — `recv_timeout` timed out; only the tick runs;
* `disconnected` — the command channel hung up.

An exhausted input list means the loop is still blocked waiting (the `exited`
flag of the result is `false` in that case).  Mirroring the Rust control
flow: `Shutdown` as the *blocking-phase* command `break`s out of the loop, so
the trailing `self.stop_internal()` runs; `Shutdown` inside the *drain* phase
executes `return`, ending `run` without that final teardown. -/

inductive LoopInput where
  | recv (first : Cmd) (rest : List Cmd) (elapsed : Nat) (queueEmpty : Bool)
  | timeout (elapsed : Nat) (queueEmpty : Bool)
  | disconnected

structure LoopResult where
  state : EngineState
  events : List PlayerEventM
  exited : Bool
deriving DecidableEq

/-- The drain phase `while let Ok(cmd) = command_rx.try_recv()`
(engine.rs:60-64): third component is `true` when a command made
`handle_command` return `true` (the `return` path). -/
def drainBatch (st : EngineState) :
    List Cmd → EngineState × List PlayerEventM × Bool
  | [] => (st, [], false)
  | c :: cs =>
    let r := handle_command st c
    if r.stop_loop = true then (r.state, r.events, true)
    else
      let d := drainBatch r.state cs
      (d.1, r.events ++ d.2.1, d.2.2)

/-- `run` (engine.rs:51-74) over a list of loop-iteration inputs. -/
def runLoop (st : EngineState) : List LoopInput → LoopResult
  | [] => ⟨st, [], false⟩
  | LoopInput.disconnected :: _ => ⟨stop_internal st, [], true⟩
  | LoopInput.timeout e q :: rest =>
    let t := tick st e q
    let r := runLoop t.1 rest
    ⟨r.state, t.2 ++ r.events, r.exited⟩
  | LoopInput.recv c cs e q :: rest =>
    let r1 := handle_command st c
    if r1.stop_loop = true then ⟨stop_internal r1.state, r1.events, true⟩
    else
      let d := drainBatch r1.state cs
      if d.2.2 = true then ⟨d.1, r1.events ++ d.2.1, true⟩
      else
        let t := tick d.1 e q
        let r := runLoop t.1 rest
        ⟨r.state, r1.events ++ d.2.1 ++ t.2 ++ r.events, r.exited⟩

/-- `PlaybackEngine::new` (engine.rs:35-49).  The oracle is the outcome of
`OutputStreamBuilder::open_default_stream()`.  The second component lists the
events sent on `event_tx` during construction: engine.rs:35-49 contains no
`event_tx.send`, so it is empty in both branches — on failure the sender is
dropped together with the `Err` return. -/
def PlaybackEngine.new (streamOpen : Except String Unit) :
    Except String EngineState × List PlayerEventM :=
  match streamOpen with
  | .error e => (.error ("Audio init failed: " ++ e), [])
  | .ok _ =>
    (.ok { sink := none, current_path := none, current_duration_ms := none,
           base_position_ms := 0, volume := 1, ended_emitted := false }, [])

/-! ## Event-stream bookkeeping helpers -/

/-- Number of `TrackEnded` events in an event list. -/
def countEnded : List PlayerEventM → Nat
  | [] => 0
  | PlayerEventM.trackEnded :: es => countEnded es + 1
  | _ :: es => countEnded es

/-- Whether an event list contains a `Started` event (i.e. a new Streaming
Source instance was successfully attached somewhere in it). -/
def hasStarted : List PlayerEventM → Bool
  | [] => false
  | PlayerEventM.started _ _ _ :: _ => true
  | _ :: es => hasStarted es

/-- Whether a command is `SetVolume`. -/
def cmdTouchesVolume : Cmd → Bool
  | Cmd.setVolume _ => true
  | _ => false

/-- Whether any command contained in a list of loop-iteration inputs is
`SetVolume`. -/
def inputsHaveSetVolume : List LoopInput → Bool
  | [] => false
  | LoopInput.recv c cs _ _ :: rest =>
    cmdTouchesVolume c || cs.any cmdTouchesVolume || inputsHaveSetVolume rest
  | _ :: rest => inputsHaveSetVolume rest

/-! ## Concrete fixtures used by witnesses and counterexamples -/

/-- A live (playing, full-volume) sink. -/
def sinkLive : SinkState := { volume := 1, paused := false }

/-- An engine mid-playback: a 10 s track, playing, 3 s base offset. -/
def enginePlaying : EngineState :=
  { sink := some sinkLive, current_path := some "a.mp3",
    current_duration_ms := some 10000, base_position_ms := 3000,
    volume := 1, ended_emitted := false }

/-- A three-packet stream for track 1, each packet decoding to two
interleaved samples at 1000 Hz mono (sample values are opaque tags). -/
def c1Stream : List PacketEvent :=
  [PacketEvent.packet 1 (DecodeOutcome.ok 1000 1 [10, 11]),
   PacketEvent.packet 1 (DecodeOutcome.ok 1000 1 [20, 21]),
   PacketEvent.packet 1 (DecodeOutcome.ok 1000 1 [30, 31])]

theorem countEnded_append (a b : List PlayerEventM) :
    countEnded (a ++ b) = countEnded a + countEnded b := by
  induction a with
  | nil => simp [countEnded]
  | cons e es ih => cases e <;> simp [countEnded, ih, Nat.add_right_comm]

theorem hasStarted_append (a b : List PlayerEventM) :
    hasStarted (a ++ b) = (hasStarted a || hasStarted b) := by
  induction a with
  | nil => simp [hasStarted]
  | cons e es ih => cases e <;> simp [hasStarted, ih]

/-! ## Per-step lemmas about the engine -/

/-- No command handler ever emits `TrackEnded`. -/
theorem handle_command_countEnded (st : EngineState) (c : Cmd) :
    countEnded (handle_command st c).events = 0 := by
  cases c with
  | playFile path r =>
    cases r <;> simp [handle_command, play_file_at, countEnded, countEnded_append]
  | pause => cases hs : st.sink <;> simp [handle_command, hs, countEnded]
  | resume => cases hs : st.sink <;> simp [handle_command, hs, countEnded]
  | stop => simp [handle_command, countEnded]
  | seek ms r =>
    cases hp : st.current_path with
    | none => simp [handle_command, hp, countEnded]
    | some p =>
      cases r <;>
        simp [handle_command, hp, play_file_at, countEnded, countEnded_append]
  | setVolume v => cases hs : st.sink <;> simp [handle_command, hs, countEnded]
  | shutdown => simp [handle_command, countEnded]

/-- A command handled from a sink-less state either leaves the sink absent or
announces a new source with `Started`. -/
theorem handle_command_sink_none (st : EngineState) (c : Cmd)
    (h : st.sink = none) :
    (handle_command st c).state.sink = none
    ∨ hasStarted (handle_command st c).events = true := by
  cases c with
  | playFile path r =>
    cases r with
    | error e => left; simp [handle_command, play_file_at, stop_internal]
    | ok d => right; simp [handle_command, play_file_at, hasStarted]
  | pause => left; simp [handle_command, h]
  | resume => left; simp [handle_command, h]
  | stop => left; simp [handle_command, stop_internal]
  | seek ms r =>
    cases hp : st.current_path with
    | none => left; simp [handle_command, hp, h]
    | some p =>
      cases r with
      | error e => left; simp [handle_command, hp, play_file_at, stop_internal]
      | ok d => right; simp [handle_command, hp, play_file_at, hasStarted]
  | setVolume v => left; simp [handle_command, h]
  | shutdown => left; simp [handle_command, h]

/-- The drain phase never emits `TrackEnded`. -/
theorem drainBatch_countEnded (cs : List Cmd) : ∀ st : EngineState,
    countEnded (drainBatch st cs).2.1 = 0 := by
  induction cs with
  | nil => intro st; simp [drainBatch, countEnded]
  | cons c cs ih =>
    intro st
    by_cases hsd : (handle_command st c).stop_loop = true
    · simp [drainBatch, hsd, handle_command_countEnded]
    · simp [drainBatch, hsd, countEnded_append, handle_command_countEnded, ih]

/-- The drain phase from a sink-less state either keeps the sink absent or
emits `Started`. -/
theorem drainBatch_sink_none (cs : List Cmd) : ∀ st : EngineState,
    st.sink = none →
    (drainBatch st cs).1.sink = none
    ∨ hasStarted (drainBatch st cs).2.1 = true := by
  induction cs with
  | nil => intro st h; left; simpa [drainBatch] using h
  | cons c cs ih =>
    intro st h
    rcases handle_command_sink_none st c h with h1 | h1
    · by_cases hsd : (handle_command st c).stop_loop = true
      · left; simpa [drainBatch, hsd] using h1
      · rcases ih (handle_command st c).state h1 with h2 | h2
        · left; simpa [drainBatch, hsd] using h2
        · right; simp [drainBatch, hsd, hasStarted_append, h2]
    · right
      by_cases hsd : (handle_command st c).stop_loop = true
      · simpa [drainBatch, hsd] using h1
      · simp [drainBatch, hsd, hasStarted_append, h1]

/-- A tick on a sink-less engine does nothing. -/
theorem tick_sink_none (st : EngineState) (e : Nat) (q : Bool)
    (h : st.sink = none) : tick st e q = (st, []) := by
  simp [tick, h]

/-- Case analysis on one tick: it is silent, emits one `Position`, or emits
`Position` then `TrackEnded` and tears the session down. -/
theorem tick_cases (st : EngineState) (e : Nat) (q : Bool) :
    ((tick st e q).2 = [] ∧ (tick st e q).1 = st)
    ∨ ((tick st e q).2 = [PlayerEventM.position (st.base_position_ms + e)]
        ∧ (tick st e q).1 = st)
    ∨ ((tick st e q).2
          = [PlayerEventM.position (st.base_position_ms + e), PlayerEventM.trackEnded]
        ∧ (tick st e q).1.sink = none) := by
  cases hs : st.sink with
  | none => left; simp [tick, hs]
  | some sk =>
    by_cases hc : (q && st.current_path.isSome && !st.ended_emitted) = true
    · right; right; simp [tick, hs, hc, stop_internal]
    · right; left; simp [tick, hs, hc]

/-! ## Unfolding equations for the main loop -/

theorem runLoop_timeout_eq (st : EngineState) (e : Nat) (q : Bool)
    (rest : List LoopInput) :
    runLoop st (LoopInput.timeout e q :: rest)
      = ⟨(runLoop (tick st e q).1 rest).state,
         (tick st e q).2 ++ (runLoop (tick st e q).1 rest).events,
         (runLoop (tick st e q).1 rest).exited⟩ := rfl

theorem runLoop_recv_break_eq (st : EngineState) (c : Cmd) (cs : List Cmd)
    (e : Nat) (q : Bool) (rest : List LoopInput)
    (h : (handle_command st c).stop_loop = true) :
    runLoop st (LoopInput.recv c cs e q :: rest)
      = ⟨stop_internal (handle_command st c).state,
         (handle_command st c).events, true⟩ := by
  simp [runLoop, h]

theorem runLoop_recv_drain_exit_eq (st : EngineState) (c : Cmd)
    (cs : List Cmd) (e : Nat) (q : Bool) (rest : List LoopInput)
    (h1 : (handle_command st c).stop_loop = false)
    (h2 : (drainBatch (handle_command st c).state cs).2.2 = true) :
    runLoop st (LoopInput.recv c cs e q :: rest)
      = ⟨(drainBatch (handle_command st c).state cs).1,
         (handle_command st c).events
           ++ (drainBatch (handle_command st c).state cs).2.1, true⟩ := by
  simp [runLoop, h1, h2]

theorem runLoop_recv_cont_eq (st : EngineState) (c : Cmd) (cs : List Cmd)
    (e : Nat) (q : Bool) (rest : List LoopInput)
    (h1 : (handle_command st c).stop_loop = false)
    (h2 : (drainBatch (handle_command st c).state cs).2.2 = false) :
    runLoop st (LoopInput.recv c cs e q :: rest)
      = ⟨(runLoop (tick (drainBatch (handle_command st c).state cs).1 e q).1 rest).state,
         (handle_command st c).events
           ++ (drainBatch (handle_command st c).state cs).2.1
           ++ (tick (drainBatch (handle_command st c).state cs).1 e q).2
           ++ (runLoop (tick (drainBatch (handle_command st c).state cs).1 e q).1 rest).events,
         (runLoop (tick (drainBatch (handle_command st c).state cs).1 e q).1 rest).exited⟩ := by
  simp [runLoop, h1, h2]

/-! ## Main-loop invariants for `TrackEnded` -/

/-- From a sink-less engine, a run that never announces a new source emits no
`TrackEnded` at all. -/
theorem runLoop_sink_none_countEnded (inputs : List LoopInput) :
    ∀ st : EngineState, st.sink = none →
    hasStarted (runLoop st inputs).events = false →
    countEnded (runLoop st inputs).events = 0 := by
  induction inputs with
  | nil => intro st h hs; simp [runLoop, countEnded]
  | cons inp rest ih =>
    intro st h hs
    cases inp with
    | disconnected => simp [runLoop, countEnded]
    | timeout e q =>
      rw [runLoop_timeout_eq] at hs ⊢
      rw [tick_sink_none st e q h] at hs ⊢
      simp only [hasStarted_append, Bool.or_eq_false_iff] at hs
      simpa [countEnded_append, countEnded] using ih st h hs.2
    | recv c cs e q =>
      cases hsd : (handle_command st c).stop_loop with
      | true =>
        rw [runLoop_recv_break_eq st c cs e q rest hsd] at hs ⊢
        exact handle_command_countEnded st c
      | false =>
        rcases handle_command_sink_none st c h with h1 | h1
        · rcases drainBatch_sink_none cs (handle_command st c).state h1 with h2 | h2
          · cases hdd : (drainBatch (handle_command st c).state cs).2.2 with
            | true =>
              rw [runLoop_recv_drain_exit_eq st c cs e q rest hsd hdd] at hs ⊢
              simp [countEnded_append, handle_command_countEnded,
                drainBatch_countEnded]
            | false =>
              rw [runLoop_recv_cont_eq st c cs e q rest hsd hdd] at hs ⊢
              rw [tick_sink_none _ e q h2] at hs ⊢
              simp only [hasStarted_append, Bool.or_eq_false_iff] at hs
              simp [countEnded_append, handle_command_countEnded,
                drainBatch_countEnded, countEnded, ih _ h2 hs.2]
          · exfalso
            cases hdd : (drainBatch (handle_command st c).state cs).2.2 with
            | true =>
              rw [runLoop_recv_drain_exit_eq st c cs e q rest hsd hdd] at hs
              simp [hasStarted_append, h2] at hs
            | false =>
              rw [runLoop_recv_cont_eq st c cs e q rest hsd hdd] at hs
              simp [hasStarted_append, h2] at hs
        · exfalso
          cases hdd : (drainBatch (handle_command st c).state cs).2.2 with
          | true =>
            rw [runLoop_recv_drain_exit_eq st c cs e q rest hsd hdd] at hs
            simp [hasStarted_append, h1] at hs
          | false =>
            rw [runLoop_recv_cont_eq st c cs e q rest hsd hdd] at hs
            simp [hasStarted_append, h1] at hs

/-- Over any run of the main loop that never announces a new source,
`TrackEnded` is emitted at most once. -/
theorem runLoop_countEnded_le_one (inputs : List LoopInput) :
    ∀ st : EngineState,
    hasStarted (runLoop st inputs).events = false →
    countEnded (runLoop st inputs).events ≤ 1 := by
  induction inputs with
  | nil => intro st hs; simp [runLoop, countEnded]
  | cons inp rest ih =>
    intro st hs
    cases inp with
    | disconnected => simp [runLoop, countEnded]
    | timeout e q =>
      rw [runLoop_timeout_eq] at hs ⊢
      simp only [hasStarted_append, Bool.or_eq_false_iff] at hs
      rcases tick_cases st e q with ⟨ht, hst⟩ | ⟨ht, hst⟩ | ⟨ht, hsink⟩
      · rw [ht, hst] at hs ⊢
        simpa [countEnded_append, countEnded] using ih st hs.2
      · rw [ht, hst] at hs ⊢
        simpa [countEnded_append, countEnded] using ih st hs.2
      · rw [ht] at hs ⊢
        have h0 := runLoop_sink_none_countEnded rest (tick st e q).1 hsink hs.2
        simp [countEnded_append, countEnded, h0]
    | recv c cs e q =>
      cases hsd : (handle_command st c).stop_loop with
      | true =>
        rw [runLoop_recv_break_eq st c cs e q rest hsd] at hs ⊢
        simp [handle_command_countEnded]
      | false =>
        cases hdd : (drainBatch (handle_command st c).state cs).2.2 with
        | true =>
          rw [runLoop_recv_drain_exit_eq st c cs e q rest hsd hdd] at hs ⊢
          simp [countEnded_append, handle_command_countEnded, drainBatch_countEnded]
        | false =>
          rw [runLoop_recv_cont_eq st c cs e q rest hsd hdd] at hs ⊢
          simp only [hasStarted_append, Bool.or_eq_false_iff] at hs
          rcases tick_cases (drainBatch (handle_command st c).state cs).1 e q with
            ⟨ht, hst⟩ | ⟨ht, hst⟩ | ⟨ht, hsink⟩
          · rw [ht] at hs ⊢
            simp [countEnded_append, countEnded, handle_command_countEnded,
              drainBatch_countEnded]
            exact ih _ hs.2
          · rw [ht] at hs ⊢
            simp [countEnded_append, countEnded, handle_command_countEnded,
              drainBatch_countEnded]
            exact ih _ hs.2
          · rw [ht] at hs ⊢
            have h0 := runLoop_sink_none_countEnded rest _ hsink hs.2
            simp [countEnded_append, countEnded, handle_command_countEnded,
              drainBatch_countEnded, h0]

/-! ## Volume-preservation lemmas -/

theorem handle_command_volume (st : EngineState) (c : Cmd)
    (h : cmdTouchesVolume c = false) :
    (handle_command st c).state.volume = st.volume := by
  cases c with
  | playFile path r =>
    cases r <;> simp [handle_command, play_file_at, stop_internal]
  | pause => cases hs : st.sink <;> simp [handle_command, hs]
  | resume => cases hs : st.sink <;> simp [handle_command, hs]
  | stop => simp [handle_command, stop_internal]
  | seek ms r =>
    cases hp : st.current_path with
    | none => simp [handle_command, hp]
    | some p =>
      cases r <;> simp [handle_command, hp, play_file_at, stop_internal]
  | setVolume v => simp [cmdTouchesVolume] at h
  | shutdown => simp [handle_command]

theorem drainBatch_volume (cs : List Cmd) : ∀ st : EngineState,
    cs.any cmdTouchesVolume = false →
    (drainBatch st cs).1.volume = st.volume := by
  induction cs with
  | nil => intro st h; simp [drainBatch]
  | cons c cs ih =>
    intro st h
    rw [List.any_cons, Bool.or_eq_false_iff] at h
    cases hsd : (handle_command st c).stop_loop with
    | true => simp [drainBatch, hsd, handle_command_volume st c h.1]
    | false =>
      simp [drainBatch, hsd, ih _ h.2, handle_command_volume st c h.1]

theorem tick_volume (st : EngineState) (e : Nat) (q : Bool) :
    (tick st e q).1.volume = st.volume := by
  cases hs : st.sink with
  | none => simp [tick, hs]
  | some sk =>
    by_cases hc : (q && st.current_path.isSome && !st.ended_emitted) = true
    · simp [tick, hs, hc, stop_internal]
    · simp [tick, hs, hc]

theorem runLoop_volume (inputs : List LoopInput) : ∀ st : EngineState,
    inputsHaveSetVolume inputs = false →
    (runLoop st inputs).state.volume = st.volume := by
  induction inputs with
  | nil => intro st h; simp [runLoop]
  | cons inp rest ih =>
    intro st h
    cases inp with
    | disconnected => simp [runLoop, stop_internal]
    | timeout e q =>
      have h2 : inputsHaveSetVolume rest = false := h
      rw [runLoop_timeout_eq]
      show (runLoop (tick st e q).1 rest).state.volume = st.volume
      rw [ih _ h2, tick_volume]
    | recv c cs e q =>
      have h2 : (cmdTouchesVolume c || cs.any cmdTouchesVolume
          || inputsHaveSetVolume rest) = false := h
      rw [Bool.or_eq_false_iff, Bool.or_eq_false_iff] at h2
      cases hsd : (handle_command st c).stop_loop with
      | true =>
        rw [runLoop_recv_break_eq st c cs e q rest hsd]
        show (stop_internal (handle_command st c).state).volume = st.volume
        rw [show (stop_internal (handle_command st c).state).volume
              = (handle_command st c).state.volume from rfl]
        exact handle_command_volume st c h2.1.1
      | false =>
        cases hdd : (drainBatch (handle_command st c).state cs).2.2 with
        | true =>
          rw [runLoop_recv_drain_exit_eq st c cs e q rest hsd hdd]
          show (drainBatch (handle_command st c).state cs).1.volume = st.volume
          rw [drainBatch_volume cs _ h2.1.2, handle_command_volume st c h2.1.1]
        | false =>
          rw [runLoop_recv_cont_eq st c cs e q rest hsd hdd]
          show (runLoop (tick (drainBatch (handle_command st c).state cs).1 e q).1
                  rest).state.volume = st.volume
          rw [ih _ h2.2, tick_volume, drainBatch_volume cs _ h2.1.2,
            handle_command_volume st c h2.1.1]

/-! ## Claim theorems -/

/-- C1: evaluation at the failing input.  A source over `c1Stream` with
`skip_ms = 4` (4 interleaved samples to skip at 1000 Hz mono) has, after the
priming fill, a decode-skip remainder of 2 exceeding the first refilled
buffer length 2; the skip is indeed consumed across the next refill (the
remainder reaches 0), but the first `next` call already returns `none` while
the source is not ended and the very next `next` call still yields sample
`30` — contradicting the claim that `none` is returned only once
end-of-stream is reached and the buffer drained. -/
theorem c1_premature_none_eval :
    (SymphoniaSource.new c1Stream 1 4).skip_samples_remaining = 2
    ∧ (SymphoniaSource.new c1Stream 1 4).out.length = 2
    ∧ (SymphoniaSource.new c1Stream 1 4).ended = false
    ∧ ((SymphoniaSource.new c1Stream 1 4).next).1 = none
    ∧ ((SymphoniaSource.new c1Stream 1 4).next).2.ended = false
    ∧ ((SymphoniaSource.new c1Stream 1 4).next).2.skip_samples_remaining = 0
    ∧ (((SymphoniaSource.new c1Stream 1 4).next).2.next).1 = some 30 := by
  decide

/-- C2 counterexample: from a mid-playback engine, a `Seek` whose source
construction fails leaves the session torn down — base offset reset from
3000 to 0 and the playing sink stopped and dropped — not "exactly as it was
before the attempt". -/
theorem c2_counterexample :
    enginePlaying.base_position_ms = 3000
    ∧ enginePlaying.sink = some sinkLive
    ∧ (handle_command enginePlaying
        (Cmd.seek 7000 (Except.error "Open failed"))).state.base_position_ms = 0
    ∧ (handle_command enginePlaying
        (Cmd.seek 7000 (Except.error "Open failed"))).state.sink = none := by
  decide

/-- C2 (amended): a `PlayFile` or `Seek` whose source construction fails
emits exactly one `Error(message)` event and leaves the engine idle — the
session is torn down by the `stop_internal` that runs before the open
attempt (sink stopped and dropped, path and duration cleared, base offset
reset to 0) — with only the volume surviving. -/
theorem c2_failed_open_teardown (st : EngineState) (path msg : String)
    (ms : Nat) (p : String) :
    handle_command st (Cmd.playFile path (Except.error msg))
      = ⟨stop_internal st, [PlayerEventM.error msg], false⟩
    ∧ handle_command { st with current_path := some p }
        (Cmd.seek ms (Except.error msg))
      = ⟨stop_internal st, [PlayerEventM.error msg], false⟩
    ∧ (stop_internal st).sink = none
    ∧ (stop_internal st).current_path = none
    ∧ (stop_internal st).current_duration_ms = none
    ∧ (stop_internal st).base_position_ms = 0
    ∧ (stop_internal st).volume = st.volume := by
  refine ⟨?_, ?_, rfl, rfl, rfl, rfl, rfl⟩ <;>
    simp [handle_command, play_file_at, stop_internal]

/-- C4 counterexample: with `start_ms = 5000` and no time base, a successful
fallback `SeekTo::Time` seek leaves a decode-skip remainder of 0, not the
full requested 5000 ms the claim asserts for the no-time-base case. -/
theorem c4_counterexample :
    (open_seek_setup 5000 false none true).skip_ms = 0
    ∧ ¬ (open_seek_setup 5000 false none true).skip_ms = 5000 := by
  decide

/-- C4 (amended): for `start_ms > 0`: a successful timestamp seek leaves
remainder `start_ms - actual_ms` (saturating, i.e. `max 0` of the integer
difference); a failed timestamp seek leaves the full `start_ms`; with no
time base a coarse `SeekTo::Time` seek is attempted instead, leaving
remainder 0 on success and the full `start_ms` on failure. -/
theorem c4_skip_remainder (s a : Nat) (ts : Option Nat) (tsk : Bool) :
    (open_seek_setup (s + 1) true (some a) tsk).skip_ms = (s + 1) - a
    ∧ (open_seek_setup (s + 1) true none tsk).skip_ms = s + 1
    ∧ (open_seek_setup (s + 1) false ts true).skip_ms = 0
    ∧ (open_seek_setup (s + 1) false ts false).skip_ms = s + 1 := by
  simp [open_seek_setup]

/-- C5 counterexample: with `start_ms = 5000`, a time base present and a
*failed* timestamp seek, the codec decoder is not reconstructed — the
decoder built before the seek attempt is reused, contrary to the claim that
reconstruction happens regardless of the seek outcome. -/
theorem c5_counterexample :
    (open_seek_setup 5000 true none true).decoder_recreated = false := by
  decide

/-- C5 (amended): for `start_ms > 0` the codec decoder is discarded and
reconstructed exactly when the seek attempt succeeds; on a failed seek
attempt (timestamp-based or time-based) the initially built decoder is kept. -/
theorem c5_decoder_recreation (s a : Nat) (ts : Option Nat) :
    (open_seek_setup (s + 1) true (some a) true).decoder_recreated = true
    ∧ (open_seek_setup (s + 1) true (some a) false).decoder_recreated = true
    ∧ (open_seek_setup (s + 1) true none true).decoder_recreated = false
    ∧ (open_seek_setup (s + 1) true none false).decoder_recreated = false
    ∧ (open_seek_setup (s + 1) false ts true).decoder_recreated = true
    ∧ (open_seek_setup (s + 1) false ts false).decoder_recreated = false := by
  simp [open_seek_setup]

/-- C6: a `Seek(ms)` with no active track is a no-op emitting no event; a
`Seek(ms)` with an active track whose source reconstruction succeeds sets
the base offset to `ms`, resets the ended-flag, records the fresh duration,
and emits `Started` carrying that duration and `start_ms = ms` (followed by
the immediate `Position` feedback event). -/
theorem c6_seek_semantics (st : EngineState) (ms : Nat)
    (r : Except String (Option Nat)) (p : String) (dur : Option Nat) :
    handle_command { st with current_path := none } (Cmd.seek ms r)
      = ⟨{ st with current_path := none }, [], false⟩
    ∧ (handle_command { st with current_path := some p }
        (Cmd.seek ms (Except.ok dur))).state.base_position_ms = ms
    ∧ (handle_command { st with current_path := some p }
        (Cmd.seek ms (Except.ok dur))).state.ended_emitted = false
    ∧ (handle_command { st with current_path := some p }
        (Cmd.seek ms (Except.ok dur))).state.current_duration_ms = dur
    ∧ (handle_command { st with current_path := some p }
        (Cmd.seek ms (Except.ok dur))).events
      = [PlayerEventM.started p dur ms, PlayerEventM.position ms] := by
  refine ⟨?_, ?_, ?_, ?_, ?_⟩ <;>
    simp [handle_command, play_file_at, stop_internal]

/-- C8: evaluation at the failing input.  When opening the default output
stream fails, `PlaybackEngine::new` returns `Err("Audio init failed: ...")`
and sends nothing on the event channel (the sender is dropped with the
return), so the caller's receiver never observes an `Error` event, contrary
to the claim. -/
theorem c8_new_failure_eval :
    PlaybackEngine.new (Except.error "no default output device")
      = (Except.error "Audio init failed: no default output device", []) := by
  rfl

/-- C10: a `Seek(ms)` with an active track whose source reconstruction
succeeds emits `Started` immediately followed by an extra
`Position(position_ms = ms)` event, before any periodic tick can run. -/
theorem c10_seek_position_event (st : EngineState) (p : String) (ms : Nat)
    (dur : Option Nat) :
    (handle_command { st with current_path := some p }
        (Cmd.seek ms (Except.ok dur))).events
      = [PlayerEventM.started p dur ms, PlayerEventM.position ms] := by
  simp [handle_command, play_file_at]

/-- C3: over any run of the engine main loop in which no new Streaming
Source is announced (no `Started` event), `TrackEnded` is emitted at most
once, no matter how many position ticks observe the drained queue; and a
user-initiated `Stop` or `Seek` never emits `TrackEnded` for the superseded
source. -/
theorem c3_trackEnded_at_most_once (st : EngineState) (inputs : List LoopInput)
    (ms : Nat) (r : Except String (Option Nat))
    (h : hasStarted (runLoop st inputs).events = false) :
    countEnded (runLoop st inputs).events ≤ 1
    ∧ countEnded (handle_command st Cmd.stop).events = 0
    ∧ countEnded (handle_command st (Cmd.seek ms r)).events = 0 :=
  ⟨runLoop_countEnded_le_one inputs st h,
   handle_command_countEnded st Cmd.stop,
   handle_command_countEnded st (Cmd.seek ms r)⟩

/-- C3 witness: three consecutive ticks all observing the drained queue on a
mid-playback engine yield exactly one `TrackEnded`. -/
theorem c3_witness :
    hasStarted (runLoop enginePlaying
      [LoopInput.timeout 200 true, LoopInput.timeout 200 true,
       LoopInput.timeout 200 true]).events = false
    ∧ (countEnded (runLoop enginePlaying
          [LoopInput.timeout 200 true, LoopInput.timeout 200 true,
           LoopInput.timeout 200 true]).events ≤ 1
      ∧ countEnded (handle_command enginePlaying Cmd.stop).events = 0
      ∧ countEnded (handle_command enginePlaying
          (Cmd.seek 7000 (Except.error "Open failed"))).events = 0) :=
  ⟨by decide,
   c3_trackEnded_at_most_once enginePlaying
     [LoopInput.timeout 200 true, LoopInput.timeout 200 true,
      LoopInput.timeout 200 true]
     7000 (Except.error "Open failed") (by decide)⟩

/-- C7 counterexample: on a mid-playback engine, a `Pause` received in the
blocking phase followed by `Shutdown` drained in the same iteration makes
the loop `return` — the run exits without any further tick, but the final
`stop_internal` teardown is skipped: the sink is still attached. -/
theorem c7_counterexample :
    (runLoop enginePlaying
      [LoopInput.recv Cmd.pause [Cmd.shutdown] 0 false]).exited = true
    ∧ (runLoop enginePlaying
        [LoopInput.recv Cmd.pause [Cmd.shutdown] 0 false]).state.sink
      ≠ none := by
  decide

/-- C7 (amended): a `Shutdown` received in the blocking phase exits the loop
with no further tick and runs the final `stop_internal` teardown; a
`Shutdown` received during the drain-without-blocking phase also exits with
no further tick, but returns with the engine state exactly as the preceding
commands left it — the explicit final teardown is skipped on that path. -/
theorem c7_shutdown_paths (st : EngineState) (c : Cmd) (cs cs2 : List Cmd)
    (e : Nat) (q : Bool) (more : List LoopInput)
    (h : (handle_command st c).stop_loop = false) :
    runLoop st (LoopInput.recv Cmd.shutdown cs e q :: more)
      = ⟨stop_internal st, [], true⟩
    ∧ runLoop st (LoopInput.recv c (Cmd.shutdown :: cs2) e q :: more)
      = ⟨(handle_command st c).state, (handle_command st c).events, true⟩ := by
  constructor
  · rw [runLoop_recv_break_eq st Cmd.shutdown cs e q more rfl]
    rfl
  · have hdd : (drainBatch (handle_command st c).state
        (Cmd.shutdown :: cs2)).2.2 = true := by
      simp [drainBatch, handle_command]
    rw [runLoop_recv_drain_exit_eq st c (Cmd.shutdown :: cs2) e q more h hdd]
    simp [drainBatch, handle_command]

/-- C7 witness: concrete instantiation of the two shutdown paths on a
mid-playback engine with a `Pause` preceding the drained `Shutdown`. -/
theorem c7_witness :
    (handle_command enginePlaying Cmd.pause).stop_loop = false
    ∧ (runLoop enginePlaying [LoopInput.recv Cmd.shutdown [] 0 false]
        = ⟨stop_internal enginePlaying, [], true⟩
      ∧ runLoop enginePlaying [LoopInput.recv Cmd.pause [Cmd.shutdown] 0 false]
        = ⟨(handle_command enginePlaying Cmd.pause).state,
           (handle_command enginePlaying Cmd.pause).events, true⟩) :=
  ⟨by decide,
   c7_shutdown_paths enginePlaying Cmd.pause [] [] 0 false [] (by decide)⟩

/-- C9: `SetVolume(v)` stores `v` clamped to `[0, 1]`, applies it to the
live sink when one is present (and to nothing otherwise), and — across any
further loop activity containing no other `SetVolume` — every sink newly
constructed by a subsequent `PlayFile` or `Seek` is created with exactly
that clamped volume, without re-sending `SetVolume`. -/
theorem c9_volume_persistence (st : EngineState) (v : Rat)
    (inputs : List LoopInput) (path : String) (dur : Option Nat) (ms : Nat)
    (p : String)
    (h : inputsHaveSetVolume inputs = false)
    (hp : (runLoop (handle_command st (Cmd.setVolume v)).state inputs).state.current_path
        = some p) :
    (handle_command st (Cmd.setVolume v)).state.volume = clamp01 v
    ∧ (handle_command st (Cmd.setVolume v)).state.sink
      = Option.map (fun sk => { sk with volume := clamp01 v }) st.sink
    ∧ (runLoop (handle_command st (Cmd.setVolume v)).state inputs).state.volume
      = clamp01 v
    ∧ Option.map SinkState.volume
        (handle_command
          (runLoop (handle_command st (Cmd.setVolume v)).state inputs).state
          (Cmd.playFile path (Except.ok dur))).state.sink = some (clamp01 v)
    ∧ Option.map SinkState.volume
        (handle_command
          (runLoop (handle_command st (Cmd.setVolume v)).state inputs).state
          (Cmd.seek ms (Except.ok dur))).state.sink = some (clamp01 v) := by
  have h1 : (handle_command st (Cmd.setVolume v)).state.volume = clamp01 v := by
    cases hs : st.sink <;> simp [handle_command, hs]
  have h2 : (handle_command st (Cmd.setVolume v)).state.sink
      = Option.map (fun sk => { sk with volume := clamp01 v }) st.sink := by
    cases hs : st.sink <;> simp [handle_command, hs]
  have h3 : (runLoop (handle_command st (Cmd.setVolume v)).state inputs).state.volume
      = clamp01 v := by
    rw [runLoop_volume inputs _ h, h1]
  refine ⟨h1, h2, h3, ?_, ?_⟩
  · generalize hS : (runLoop (handle_command st (Cmd.setVolume v)).state
        inputs).state = S at h3 ⊢
    simp [handle_command, play_file_at, stop_internal, h3]
  · generalize hS : (runLoop (handle_command st (Cmd.setVolume v)).state
        inputs).state = S at h3 hp ⊢
    simp [handle_command, hp, play_file_at, stop_internal, h3]

/-- C9 witness: `SetVolume(1/2)` on a mid-playback engine, one quiet tick,
then the new sinks built by `PlayFile` and `Seek` both carry volume `1/2`. -/
theorem c9_witness :
    inputsHaveSetVolume [LoopInput.timeout 100 false] = false
    ∧ (runLoop (handle_command enginePlaying (Cmd.setVolume ((1 : Rat) / 2))).state
        [LoopInput.timeout 100 false]).state.current_path = some "a.mp3"
    ∧ ((handle_command enginePlaying (Cmd.setVolume ((1 : Rat) / 2))).state.volume
        = clamp01 ((1 : Rat) / 2)
      ∧ (handle_command enginePlaying (Cmd.setVolume ((1 : Rat) / 2))).state.sink
        = Option.map (fun sk => { sk with volume := clamp01 ((1 : Rat) / 2) })
            enginePlaying.sink
      ∧ (runLoop (handle_command enginePlaying (Cmd.setVolume ((1 : Rat) / 2))).state
          [LoopInput.timeout 100 false]).state.volume = clamp01 ((1 : Rat) / 2)
      ∧ Option.map SinkState.volume
          (handle_command
            (runLoop (handle_command enginePlaying (Cmd.setVolume ((1 : Rat) / 2))).state
              [LoopInput.timeout 100 false]).state
            (Cmd.playFile "b.mp3" (Except.ok (some 5000)))).state.sink
        = some (clamp01 ((1 : Rat) / 2))
      ∧ Option.map SinkState.volume
          (handle_command
            (runLoop (handle_command enginePlaying (Cmd.setVolume ((1 : Rat) / 2))).state
              [LoopInput.timeout 100 false]).state
            (Cmd.seek 4000 (Except.ok (some 5000)))).state.sink
        = some (clamp01 ((1 : Rat) / 2))) :=
  ⟨by decide, by decide,
   c9_volume_persistence enginePlaying ((1 : Rat) / 2)
     [LoopInput.timeout 100 false] "b.mp3" (some 5000) 4000 "a.mp3"
     (by decide) (by decide)⟩

end Sonora
